import Mathlib

/-!
Verification of the Spoolman printer/cost subsystems: the change-notification
fan-out layer (topic registry, connection sessions, change emitter) and the
generic dynamic query layer (filtering, multi-key sorting, paginated counting),
shallowly embedded from `spoolman/api/v1/printer.py`, `spoolman/api/v1/cost.py`,
`spoolman/database/printer.py`, `spoolman/database/cost.py` and the migration
files.  Python strings are modelled as `List Char` so that every operation is
executable and decidable; SQL `Float` columns are modelled as `Rat`.
-/

/-- Python strings, modelled as lists of characters so that all string
operations reduce. -/
abbrev Str := List Char

/-- Conversion from a Lean string literal to the model string type. -/
def str (s : String) : Str := s.data

/-- `str.lower()` / SQL `ILIKE` case folding. -/
def toLowerL (s : Str) : Str := s.map Char.toLower

/-- `str.upper()`, used by `SortOrder[direction.upper()]` in the API layer. -/
def toUpperL (s : Str) : Str := s.map Char.toUpper

/-- Python `str.split(sep)` for a single-character separator: splits into the
(non-empty) list of parts between occurrences of `c`. -/
def splitOnChar (c : Char) : Str → List Str
  | [] => [[]]
  | x :: xs =>
    match splitOnChar c xs with
    | [] => [[]]
    | h :: t => if x == c then [] :: h :: t else (x :: h) :: t

/-- Substring test (Python `a in b`, SQL `LIKE %needle%`). -/
def containsSub (needle : Str) : Str → Bool
  | [] => needle.isEmpty
  | x :: xs => needle.isPrefixOf (x :: xs) || containsSub needle xs

/-- Digit-string parser; `none` models Python `int()` raising `ValueError`. -/
def parseNatL : Str → Option Nat
  | [] => none
  | s => s.foldl (fun acc c => match acc with
      | none => none
      | some n => if c.isDigit then some (n * 10 + (c.toNat - 48)) else none) (some 0)

/-- Python `int(s)` for optionally negated digit strings. -/
def parseIntL : Str → Option Int
  | '-' :: rest => (parseNatL rest).map (fun n => -(n : Int))
  | s => (parseNatL s).map (fun n => (n : Int))

/-- Python `str(n)` for a natural number. -/
def natToStr (n : Nat) : Str := Nat.toDigits 10 n

/-- Python `str(i)` for an integer. -/
def intToStr (i : Int) : Str :=
  if i < 0 then '-' :: natToStr (-i).toNat else natToStr i.toNat

/-- Lexicographic order on model strings (SQL string collation, simplified to
code-point order; nothing in the claims depends on the collation details). -/
def listCharLe : Str → Str → Bool
  | [], _ => true
  | _ :: _, [] => false
  | a :: as, b :: bs => if a < b then true else if a == b then listCharLe as bs else false

theorem listCharLe_total : ∀ a b : Str, listCharLe a b = true ∨ listCharLe b a = true := by
  intro a
  induction a with
  | nil => intro b; left; rfl
  | cons x xs ih =>
    intro b
    cases b with
    | nil => right; rfl
    | cons y ys =>
      simp only [listCharLe]
      rcases lt_trichotomy x y with h | h | h
      · left; simp [h]
      · subst h
        have hx : ¬ x < x := lt_irrefl x
        rcases ih ys with h' | h'
        · left; simp [hx, h']
        · right; simp [hx, h']
      · right; simp [h, not_lt_of_lt h]

theorem listCharLe_trans : ∀ a b c : Str,
    listCharLe a b = true → listCharLe b c = true → listCharLe a c = true := by
  intro a
  induction a with
  | nil => intro b c _ _; rfl
  | cons x xs ih =>
    intro b c hab hbc
    cases b with
    | nil => simp [listCharLe] at hab
    | cons y ys =>
      cases c with
      | nil => simp [listCharLe] at hbc
      | cons z zs =>
        simp only [listCharLe] at hab hbc ⊢
        by_cases hxy : x < y
        · by_cases hyz : y < z
          · simp [lt_trans hxy hyz]
          · by_cases hyzeq : y == z
            · have : y = z := by exact eq_of_beq hyzeq
              subst this
              simp [hxy]
            · simp [hyz, hyzeq] at hbc
        · by_cases hxyeq : x == y
          · have : x = y := by exact eq_of_beq hxyeq
            subst this
            simp [hxy] at hab
            by_cases hyz : x < z
            · simp [hyz]
            · by_cases hyzeq : x == z
              · have : x = z := by exact eq_of_beq hyzeq
                subst this
                simp [hyz] at hbc ⊢
                exact ih _ _ hab hbc
              · simp [hyz, hyzeq] at hbc
          · simp [hxy, hxyeq] at hab

/-- Sort directions, from `spoolman.database.utils.SortOrder` (referenced by the
API code as `SortOrder[direction.upper()]` with members `ASC` and `DESC`). -/
inductive SortOrder where
  | ASC
  | DESC
deriving DecidableEq

/-- A single SQL sort key value: the value of one column of one row.  `null`
models SQL NULL (nullable columns); the claims do not depend on where NULLs
sort, the model places them first. -/
inductive SortKey where
  | null
  | i (n : Int)
  | q (v : Rat)
  | s (v : Str)
deriving DecidableEq

/-- Total comparison of sort key values (the order a SQL `ORDER BY` applies to
one column; keys of distinct kinds never meet in a well-typed query). -/
def SortKey.leb : SortKey → SortKey → Bool
  | .null, _ => true
  | _, .null => false
  | .i x, .i y => decide (x ≤ y)
  | .i _, _ => true
  | _, .i _ => false
  | .q x, .q y => decide (x ≤ y)
  | .q _, _ => true
  | _, .q _ => false
  | .s x, .s y => listCharLe x y

theorem SortKey.leb_total : ∀ a b : SortKey, a.leb b = true ∨ b.leb a = true := by
  intro a b
  cases a <;> cases b <;> simp [SortKey.leb]
  · exact Int.le_total _ _
  · exact le_total _ _
  · exact listCharLe_total _ _

theorem SortKey.leb_trans : ∀ a b c : SortKey,
    a.leb b = true → b.leb c = true → a.leb c = true := by
  intro a b c hab hbc
  cases a <;> cases b <;> cases c <;> simp [SortKey.leb] at hab hbc ⊢
  · exact le_trans hab hbc
  · exact le_trans hab hbc
  · exact listCharLe_trans _ _ _ hab hbc

/-- One resolved sort key: a typed accessor (the result of resolving a field
path against the entity's column table) together with a direction. -/
structure SortKeySpec (α : Type) where
  key : α → SortKey
  order : SortOrder

/-- Comparison of two rows under one resolved sort key: `field.asc()` compares
the keys forward, `field.desc()` backward. -/
def keyLeb {α : Type} (k : SortKeySpec α) (a b : α) : Bool :=
  match k.order with
  | .ASC => (k.key a).leb (k.key b)
  | .DESC => (k.key b).leb (k.key a)

/-- The multi-key comparison realised by chained `stmt.order_by(...)` calls:
the first key is primary, each later key only decides ties of all earlier
keys (SQL `ORDER BY k1, k2, ...`). -/
def lexLeb {α : Type} : List (SortKeySpec α) → α → α → Bool
  | [], _, _ => true
  | k :: ks, a, b =>
    if keyLeb k a b then (if keyLeb k b a then lexLeb ks a b else true) else false

/-- The multi-key sort order as a relation. -/
def lexRel {α : Type} (ks : List (SortKeySpec α)) (a b : α) : Prop :=
  lexLeb ks a b = true

instance lexRelDecidable {α : Type} (ks : List (SortKeySpec α)) :
    DecidableRel (lexRel ks) :=
  fun a b => inferInstanceAs (Decidable (lexLeb ks a b = true))

theorem keyLeb_total {α : Type} (k : SortKeySpec α) :
    ∀ a b : α, keyLeb k a b = true ∨ keyLeb k b a = true := by
  intro a b
  cases h : k.order <;> simp [keyLeb, h] <;> exact SortKey.leb_total _ _

theorem keyLeb_trans {α : Type} (k : SortKeySpec α) :
    ∀ a b c : α, keyLeb k a b = true → keyLeb k b c = true → keyLeb k a c = true := by
  intro a b c hab hbc
  cases h : k.order <;> simp [keyLeb, h] at hab hbc ⊢
  · exact SortKey.leb_trans _ _ _ hab hbc
  · exact SortKey.leb_trans _ _ _ hbc hab

theorem lexRel_total {α : Type} (ks : List (SortKeySpec α)) :
    ∀ a b : α, lexRel ks a b ∨ lexRel ks b a := by
  induction ks with
  | nil => intro a b; left; rfl
  | cons k ks ih =>
    intro a b
    unfold lexRel lexLeb
    by_cases hab : keyLeb k a b = true
    · by_cases hba : keyLeb k b a = true
      · rcases ih a b with h | h
        · left; simp [hab, hba]; exact h
        · right; simp [hab, hba]; exact h
      · left; simp [hab, hba]
    · rcases keyLeb_total k a b with h | h
      · exact absurd h hab
      · right
        simp [h, hab]

theorem lexRel_trans {α : Type} (ks : List (SortKeySpec α)) :
    ∀ a b c : α, lexRel ks a b → lexRel ks b c → lexRel ks a c := by
  induction ks with
  | nil => intro a b c _ _; rfl
  | cons k ks ih =>
    intro a b c hab hbc
    unfold lexRel lexLeb at hab hbc ⊢
    by_cases h1 : keyLeb k a b = true
    · by_cases h2 : keyLeb k b c = true
      · have hac : keyLeb k a c = true := keyLeb_trans k a b c h1 h2
        by_cases hca : keyLeb k c a = true
        · have hcb : keyLeb k c b = true := keyLeb_trans k c a b hca h1
          have hba : keyLeb k b a = true := keyLeb_trans k b c a h2 hca
          simp [h1, hba] at hab
          simp [h2, hcb] at hbc
          simp [hac, hca]
          exact ih a b c hab hbc
        · simp [hac, hca]
      · simp [h2] at hbc
    · simp [h1] at hab

/-- A row of the `printer` table, columns from migration `1b23c4567abc`
(`id`, `registered`, `name`, `power_watts`, `depreciation_cost_per_hour`,
`comment`). -/
structure PrinterRow where
  id : Int
  registered : Nat
  name : Str
  power_watts : Option Rat
  depreciation_cost_per_hour : Option Rat
  comment : Option Str
deriving DecidableEq

/-- A row of the `filament` table.  The filament schema predates the examined
material and only its primary key is used by this subsystem (foreign-key
existence checks and one-level snapshot resolution), so only `id` is kept. -/
structure FilamentRow where
  id : Int
deriving DecidableEq

/-- The scalar value columns of the `cost_calculation` table, from migration
`1b23c4567abc` (the three columns added by `8c3c0a0b8f6c` —
`energy_cost_per_kwh`, `labor_cost_per_hour`, `item_names` — are absent from
`database/cost.py`'s create/update signatures, which is material to claim C4). -/
structure CostFields where
  print_time_hours : Option Rat
  labor_time_hours : Option Rat
  filament_weight_g : Option Rat
  material_cost : Option Rat
  energy_cost : Option Rat
  depreciation_cost : Option Rat
  labor_cost : Option Rat
  consumables_cost : Option Rat
  failure_rate : Option Rat
  markup_rate : Option Rat
  base_price : Option Rat
  uplifted_price : Option Rat
  final_price : Option Rat
  currency : Option Str
  notes : Option Str
deriving DecidableEq

/-- An ORM instance of `models.CostCalculation`: scalar columns plus the
`printer` and `filament` relations (both nullable foreign keys). -/
structure CostRow where
  id : Int
  created : Nat
  printer : Option PrinterRow
  filament : Option FilamentRow
  fields : CostFields
deriving DecidableEq

/-- The nullable `printer_id` foreign-key column of a cost row. -/
def CostRow.printerId (r : CostRow) : Option Int := r.printer.map (fun p => p.id)

/-- The nullable `filament_id` foreign-key column of a cost row. -/
def CostRow.filamentId (r : CostRow) : Option Int := r.filament.map (fun f => f.id)

/-- The database state visible to this subsystem: the three tables, the next
autoincrement id for `cost_calculation`, and the current clock
(`datetime.utcnow()`). -/
structure DB where
  printers : List PrinterRow
  filaments : List FilamentRow
  costs : List CostRow
  nextPrinterId : Int
  nextCostId : Int
  now : Nat
deriving DecidableEq

/-- Modelled from the spec: `spoolman.database.utils.add_where_clause_str_opt`
is not under `src/`; per the spec a string filter is a comma-separated list of
terms OR'd together, each term matching by case-insensitive substring, or by
case-insensitive exact equality when the term is surrounded by quotes. -/
def strFilterTermMatches (term v : Str) : Bool :=
  if term.length ≥ 2 && (term.head? == some '"') && (term.getLast? == some '"') then
    toLowerL (term.drop 1).dropLast == toLowerL v
  else
    containsSub (toLowerL term) (toLowerL v)

/-- Modelled from the spec: the whole string filter — `none` applies no where
clause, otherwise any of the comma-separated terms may match. -/
def matchesNameFilter (filter : Option Str) (v : Str) : Bool :=
  match filter with
  | none => true
  | some f => (splitOnChar ',' f).any (fun t => strFilterTermMatches t v)

/-- Modelled from the spec: `spoolman.database.utils.add_where_clause_int_opt`
is not under `src/`; per the spec an integer/reference filter is a list of ids
OR'd together, where the sentinel `-1` is not a literal id but means "match
rows where the field is absent", and sentinel and concrete values combine as
OR within one filter. -/
def matchIntFilter (ids : Option (List Int)) (field : Option Int) : Bool :=
  match ids with
  | none => true
  | some ids =>
    match field with
    | some v => (ids.filter (fun x => x ≠ -1)).contains v
    | none => ids.contains (-1)

/-- The sort key of a nullable numeric column: SQL NULL, or the value. -/
def optRatKey (v : Option Rat) : SortKey :=
  match v with
  | none => .null
  | some q => .q q

/-- The sort key of a nullable integer column: SQL NULL, or the value. -/
def optIntKey (v : Option Int) : SortKey :=
  match v with
  | none => .null
  | some n => .i n

/-- The sort key of a nullable string column: SQL NULL, or the value. -/
def optStrKey (v : Option Str) : SortKey :=
  match v with
  | none => .null
  | some s => .s s

/-- Modelled from the spec: `spoolman.database.utils.parse_nested_field` is not
under `src/`; per the spec a field path is resolved against the entity's
declared column table, and an unknown field is a resolution failure.  This is
the accessor table for `models.Printer` (columns from the migration). -/
def printerSortField (f : Str) : Except Str (PrinterRow → SortKey) :=
  if f = str "id" then .ok (fun r => .i r.id)
  else if f = str "registered" then .ok (fun r => .i (r.registered : Int))
  else if f = str "name" then .ok (fun r => .s r.name)
  else if f = str "power_watts" then .ok (fun r => optRatKey r.power_watts)
  else if f = str "depreciation_cost_per_hour" then
    .ok (fun r => optRatKey r.depreciation_cost_per_hour)
  else if f = str "comment" then .ok (fun r => optStrKey r.comment)
  else .error (str "Invalid field name " ++ f)

/-- Modelled from the spec: the accessor table for `models.CostCalculation`
(scalar columns from the migrations; the nested relation paths the claims do
not exercise are omitted). -/
def costSortField (f : Str) : Except Str (CostRow → SortKey) :=
  if f = str "id" then .ok (fun r => .i r.id)
  else if f = str "created" then .ok (fun r => .i (r.created : Int))
  else if f = str "printer_id" then .ok (fun r => optIntKey r.printerId)
  else if f = str "filament_id" then .ok (fun r => optIntKey r.filamentId)
  else if f = str "final_price" then .ok (fun r => optRatKey r.fields.final_price)
  else if f = str "base_price" then .ok (fun r => optRatKey r.fields.base_price)
  else .error (str "Invalid field name " ++ f)

/-- Resolution of a whole sort specification: each `(field, direction)` entry
of `sort_by`, in order, resolved through the entity's accessor table
(`parse_nested_field(model, fieldstr)` inside the `for fieldstr, order in
sort_by.items()` loop); the first unknown field aborts. -/
def resolveSort {α : Type} (resolve : Str → Except Str (α → SortKey)) :
    List (Str × SortOrder) → Except Str (List (SortKeySpec α))
  | [] => .ok []
  | (f, o) :: rest =>
    match resolve f with
    | .error e => .error e
    | .ok acc =>
      match resolveSort resolve rest with
      | .error e => .error e
      | .ok ks => .ok ({ key := acc, order := o } :: ks)

/-- `spoolman.database.printer.find`: build the select with the optional name
where-clause; when a limit is given, first run the count of the filtered set
(`with_only_columns(count())` before offset/limit), then apply offset/limit;
apply the `order_by` keys in listed order; execute; when no limit is given the
total count is the number of rows returned.  SQL applies `ORDER BY` to the
filtered set before `LIMIT/OFFSET`, which the model makes explicit. -/
def printer_find (rows : List PrinterRow) (name : Option Str)
    (sort_by : List (Str × SortOrder)) (limit : Option Nat) (offset : Nat) :
    Except Str (List PrinterRow × Nat) :=
  let filtered := rows.filter (fun r => matchesNameFilter name r.name)
  match resolveSort printerSortField sort_by with
  | .error e => .error e
  | .ok specs =>
    let sorted := List.insertionSort (lexRel specs) filtered
    match limit with
    | some l => .ok ((sorted.drop offset).take l, filtered.length)
    | none => .ok (sorted, sorted.length)

/-- `spoolman.database.cost.find`: same shape as the printer find, with the two
optional integer foreign-key filters (`add_where_clause_int_opt` on
`printer_id` and `filament_id`).  The outer joins to `printer` and `filament`
are many-to-one and so do not multiply rows. -/
def cost_find (rows : List CostRow) (printer_id filament_id : Option (List Int))
    (sort_by : List (Str × SortOrder)) (limit : Option Nat) (offset : Nat) :
    Except Str (List CostRow × Nat) :=
  let filtered := rows.filter
    (fun r => matchIntFilter printer_id r.printerId && matchIntFilter filament_id r.filamentId)
  match resolveSort costSortField sort_by with
  | .error e => .error e
  | .ok specs =>
    let sorted := List.insertionSort (lexRel specs) filtered
    match limit with
    | some l => .ok ((sorted.drop offset).take l, filtered.length)
    | none => .ok (sorted, sorted.length)

/-- One entry of a parsed `sort` query parameter.  The API code accumulates the
entries into a Python dict (`sort_by[field] = SortOrder[...]`): insertion order
is preserved, and a repeated field keeps its first position but takes the last
direction. -/
def dictInsert (d : List (Str × SortOrder)) (k : Str) (v : SortOrder) :
    List (Str × SortOrder) :=
  if d.any (fun p => p.1 == k) then d.map (fun p => if p.1 == k then (p.1, v) else p)
  else d ++ [(k, v)]

/-- One `"field:direction"` item of the `sort` query parameter:
`field, direction = sort_item.split(":")` (a `ValueError` unless there are
exactly two parts) followed by `SortOrder[direction.upper()]` (a `KeyError`
unless the direction is `asc` or `desc` in any case). -/
def parseSortItem (item : Str) : Except Str (Str × SortOrder) :=
  match splitOnChar ':' item with
  | [field, direction] =>
    if toUpperL direction = str "ASC" then .ok (field, .ASC)
    else if toUpperL direction = str "DESC" then .ok (field, .DESC)
    else .error (str "KeyError: " ++ direction)
  | _ => .error (str "ValueError: sort item must be field:direction")

/-- The `for sort_item in sort.split(","):` loop body of the API find
endpoints, folded over the comma-separated items. -/
def parseSortItems : List Str → List (Str × SortOrder) →
    Except Str (List (Str × SortOrder))
  | [], acc => .ok acc
  | item :: rest, acc =>
    match parseSortItem item with
    | .error e => .error e
    | .ok (f, o) => parseSortItems rest (dictInsert acc f o)

/-- The sort-parameter handling of the API find endpoints: an absent parameter
yields the empty dict, otherwise the comma-separated items are parsed in
order. -/
def parseSortSpec (sort : Option Str) : Except Str (List (Str × SortOrder)) :=
  match sort with
  | none => .ok []
  | some s => parseSortItems (splitOnChar ',' s) []

/-- `spoolman.api.v1.printer.find`: parse the sort parameter, then run the
database find with the name filter and pagination passed through. -/
def api_printer_find (rows : List PrinterRow) (name sort : Option Str)
    (limit : Option Nat) (offset : Nat) : Except Str (List PrinterRow × Nat) :=
  match parseSortSpec sort with
  | .error e => .error e
  | .ok sort_by => printer_find rows name sort_by limit offset

/-- `int(v) for v in value.split(",")`, failing like Python `int()` on a
non-numeric part. -/
def mapParseInt : List Str → Except Str (List Int)
  | [] => .ok []
  | v :: rest =>
    match parseIntL v with
    | none => .error (str "ValueError: invalid literal for int: " ++ v)
    | some n =>
      match mapParseInt rest with
      | .error e => .error e
      | .ok ns => .ok (n :: ns)

/-- `spoolman.api.v1.cost._parse_int_csv`: `None` passes through, otherwise the
comma-separated integers are parsed. -/
def parse_int_csv (value : Option Str) : Except Str (Option (List Int)) :=
  match value with
  | none => .ok none
  | some v =>
    match mapParseInt (splitOnChar ',' v) with
    | .error e => .error e
    | .ok ns => .ok (some ns)

/-- `spoolman.api.v1.cost.find`: parse the sort parameter, parse the two id
filters through `_parse_int_csv`, then run the database find. -/
def api_cost_find (rows : List CostRow) (printer_id filament_id sort : Option Str)
    (limit : Option Nat) (offset : Nat) : Except Str (List CostRow × Nat) :=
  match parseSortSpec sort with
  | .error e => .error e
  | .ok sort_by =>
    match parse_int_csv printer_id with
    | .error e => .error e
    | .ok printer_ids =>
      match parse_int_csv filament_id with
      | .error e => .error e
      | .ok filament_ids => cost_find rows printer_ids filament_ids sort_by limit offset

/-- A hierarchical topic: a tuple of string segments, e.g.
`("printer",)` or `("cost", "42")`. -/
abbrev Topic := List Str

/-- An opaque handle to one live websocket connection. -/
abbrev ConnId := Nat

/-- Modelled from the spec: `spoolman.ws.websocket_manager` (`spoolman/ws.py`)
is not under `src/`; per the spec the Topic Registry's only state is its
topic-to-subscribers membership, with no uniqueness constraint across
connections. -/
structure WebsocketManager where
  websockets : List (Topic × ConnId)
deriving DecidableEq

/-- Modelled from the spec: `subscribe(topic, connection)` registers the
connection under the topic. -/
def WebsocketManager.connect (m : WebsocketManager) (t : Topic) (c : ConnId) :
    WebsocketManager :=
  { websockets := (t, c) :: m.websockets }

/-- Modelled from the spec: `unsubscribe(topic, connection)` removes the exact
(topic, connection) pair and is idempotent. -/
def WebsocketManager.disconnect (m : WebsocketManager) (t : Topic) (c : ConnId) :
    WebsocketManager :=
  { websockets := m.websockets.filter (fun p => !(p.1 == t && p.2 == c)) }

/-- One topic is a strict prefix (proper ancestor) of another. -/
def strictPrefixTopic (a b : Topic) : Bool :=
  a.isPrefixOf b && a != b

/-- Modelled from the spec: `publish(topic, event)` delivers to every
connection subscribed to the topic and to every connection subscribed to any
strict prefix of it (ancestor fan-out); the returned list is the set of
connections the event is delivered to. -/
def WebsocketManager.send (m : WebsocketManager) (t : Topic) : List ConnId :=
  (m.websockets.filter (fun p => p.1 == t || strictPrefixTopic p.1 t)).map (fun p => p.2)

/-- Why the websocket handler loop terminated.  `peerDisconnect` is
`receive_text` raising `WebSocketDisconnect`; `cancelled` is external
cancellation of the session task (`asyncio.CancelledError`); `otherError` is
any other exception escaping the loop body. -/
inductive ExitCause where
  | peerDisconnect
  | cancelled
  | otherError
deriving DecidableEq

/-- The websocket handlers `notify_any` / `notify` of both API modules, which
all share one shape: `websocket_manager.connect(topic, ws)`, then a heartbeat
loop inside `try: ... except WebSocketDisconnect:
websocket_manager.disconnect(topic, ws)`.  The registry state after the
handler terminates with the given cause: only the `WebSocketDisconnect` branch
runs the disconnect; there is no `finally`, so any other exception or an
external cancellation leaves the handler without unsubscribing. -/
def notifySession (m : WebsocketManager) (topic : Topic) (ws : ConnId)
    (cause : ExitCause) : WebsocketManager :=
  let subscribed := m.connect topic ws
  match cause with
  | .peerDisconnect => subscribed.disconnect topic ws
  | .cancelled => subscribed
  | .otherError => subscribed

/-- Whether the registry still holds an entry referencing the connection. -/
def WebsocketManager.references (m : WebsocketManager) (c : ConnId) : Bool :=
  m.websockets.any (fun p => p.2 == c)

/-- `spoolman.api.v1.models.EventType`, as used by the database modules
(`EventType.ADDED` / `UPDATED` / `DELETED`). -/
inductive EventType where
  | added
  | updated
  | deleted
deriving DecidableEq

/-- `spoolman.api.v1.models.PrinterEvent`: the wire envelope built by
`printer_changed`.  `Printer.from_db` maps the ORM row onto the API model
field for field, so the payload is the row snapshot itself. -/
structure PrinterEvent where
  typ : EventType
  resource : Str
  date : Nat
  payload : PrinterRow
deriving DecidableEq

/-- `spoolman.api.v1.models.CostEvent`: the wire envelope built by
`cost_changed`.  `CostCalculation.from_db(cost_calc, printer=Printer.from_db(...),
filament=Filament.from_db(...))` resolves the two direct relations one level
deep; the model row already carries them, so the payload is the row snapshot. -/
structure CostEvent where
  typ : EventType
  resource : Str
  date : Nat
  payload : CostRow
deriving DecidableEq

/-- How a stream write attempt on one subscriber ends; the argument injects a
fault (serialization error, broken stream) into the notification step. -/
abbrev SendFn (ev : Type) := Topic → ev → Except Str Unit

/-- `spoolman.database.printer.printer_changed`: build the event, publish it to
the topic `("printer", str(printer.id))`, and swallow any exception from the
send (`except Exception: logger.exception(...)`).  Returns the publish
attempts made and the logged send failure, if any. -/
def printer_changed (send : SendFn PrinterEvent) (now : Nat) (p : PrinterRow)
    (typ : EventType) : List (Topic × PrinterEvent) × Option Str :=
  let ev : PrinterEvent := { typ := typ, resource := str "printer", date := now, payload := p }
  let topic : Topic := [str "printer", intToStr p.id]
  match send topic ev with
  | .ok _ => ([(topic, ev)], none)
  | .error e => ([(topic, ev)], some e)

/-- `spoolman.database.cost.cost_changed`: build the event with the one-level
resolved printer/filament snapshots, publish it to
`("cost", str(cost_calc.id))`, and swallow any exception from the send. -/
def cost_changed (send : SendFn CostEvent) (now : Nat) (c : CostRow)
    (typ : EventType) : List (Topic × CostEvent) × Option Str :=
  let ev : CostEvent := { typ := typ, resource := str "cost", date := now, payload := c }
  let topic : Topic := [str "cost", intToStr c.id]
  match send topic ev with
  | .ok _ => ([(topic, ev)], none)
  | .error e => ([(topic, ev)], some e)

/-- The outcome of one mutation endpoint call: the returned value or raised
domain error, the database state afterwards, the events published by the
change emitter, and the send failure it logged (never re-raised). -/
structure MutOut (ρ ev : Type) where
  result : Except Str ρ
  db : DB
  published : List (Topic × ev)
  sendLog : Option Str

/-- `spoolman.database.printer.get_by_id`: the row, or `ItemNotFoundError`. -/
def printer_get_by_id (db : DB) (printer_id : Int) : Except Str PrinterRow :=
  match db.printers.find? (fun p => p.id == printer_id) with
  | some p => .ok p
  | none => .error (str "No printer with ID " ++ intToStr printer_id ++ str " found.")

/-- `spoolman.database.printer.create`: construct the row with
`registered=utcnow`, add it, commit, refresh, then notify. -/
def printer_create (send : SendFn PrinterEvent) (db : DB) (name : Str)
    (power_watts depreciation_cost_per_hour : Option Rat) (comment : Option Str) :
    MutOut PrinterRow PrinterEvent :=
  let printer : PrinterRow :=
    { id := db.nextPrinterId
      registered := db.now
      name := name
      power_watts := power_watts
      depreciation_cost_per_hour := depreciation_cost_per_hour
      comment := comment }
  let db1 : DB :=
    { db with printers := db.printers ++ [printer], nextPrinterId := db.nextPrinterId + 1 }
  let notified := printer_changed send db.now printer .added
  { result := .ok printer, db := db1, published := notified.1, sendLog := notified.2 }

/-- `spoolman.database.printer.update`: look the row up (404 if absent),
overwrite each field whose argument is not `None`, commit, then notify. -/
def printer_update (send : SendFn PrinterEvent) (db : DB) (printer_id : Int)
    (name : Option Str) (power_watts depreciation_cost_per_hour : Option Rat)
    (comment : Option Str) : MutOut PrinterRow PrinterEvent :=
  match printer_get_by_id db printer_id with
  | .error e => { result := .error e, db := db, published := [], sendLog := none }
  | .ok printer =>
    let printer' : PrinterRow :=
      { printer with
          name := match name with | some v => v | none => printer.name
          power_watts := match power_watts with | some v => some v | none => printer.power_watts
          depreciation_cost_per_hour :=
            match depreciation_cost_per_hour with
            | some v => some v
            | none => printer.depreciation_cost_per_hour
          comment := match comment with | some v => some v | none => printer.comment }
    let db1 : DB :=
      { db with printers := db.printers.map (fun p => if p.id == printer_id then printer' else p) }
    let notified := printer_changed send db.now printer' .updated
    { result := .ok printer', db := db1, published := notified.1, sendLog := notified.2 }

/-- `spoolman.database.printer.delete`: look the row up (404 if absent),
delete it, commit, then notify. -/
def printer_delete (send : SendFn PrinterEvent) (db : DB) (printer_id : Int) :
    MutOut Unit PrinterEvent :=
  match printer_get_by_id db printer_id with
  | .error e => { result := .error e, db := db, published := [], sendLog := none }
  | .ok printer =>
    let db1 : DB := { db with printers := db.printers.filter (fun p => !(p.id == printer_id)) }
    let notified := printer_changed send db.now printer .deleted
    { result := .ok (), db := db1, published := notified.1, sendLog := notified.2 }

/-- The filament lookup inside `cost.create`/`cost.update`:
`db.get(models.Filament, filament_id)`, with `ItemNotFoundError` when absent. -/
def filament_get_by_id (db : DB) (filament_id : Int) : Except Str FilamentRow :=
  match db.filaments.find? (fun f => f.id == filament_id) with
  | some f => .ok f
  | none => .error (str "No filament with ID " ++ intToStr filament_id ++ str " found.")

/-- `spoolman.database.cost.get_by_id`: the row, or `ItemNotFoundError`. -/
def cost_get_by_id (db : DB) (calculation_id : Int) : Except Str CostRow :=
  match db.costs.find? (fun c => c.id == calculation_id) with
  | some c => .ok c
  | none =>
    .error (str "No cost calculation with ID " ++ intToStr calculation_id ++ str " found.")

/-- `spoolman.database.cost.create`: resolve the printer foreign key first,
then the filament one — either failure raises `ItemNotFoundError` before the
entity is constructed, before `db.add`, before commit and before any event is
built — then construct the row with `created=utcnow`, add, commit, refresh,
and notify. -/
def cost_create (send : SendFn CostEvent) (db : DB)
    (printer_id filament_id : Option Int) (f : CostFields) : MutOut CostRow CostEvent :=
  let printerRes : Except Str (Option PrinterRow) :=
    match printer_id with
    | none => .ok none
    | some pid =>
      match printer_get_by_id db pid with
      | .error e => .error e
      | .ok p => .ok (some p)
  match printerRes with
  | .error e => { result := .error e, db := db, published := [], sendLog := none }
  | .ok printer_obj =>
    let filamentRes : Except Str (Option FilamentRow) :=
      match filament_id with
      | none => .ok none
      | some fid =>
        match filament_get_by_id db fid with
        | .error e => .error e
        | .ok fo => .ok (some fo)
    match filamentRes with
    | .error e => { result := .error e, db := db, published := [], sendLog := none }
    | .ok filament_obj =>
      let calculation : CostRow :=
        { id := db.nextCostId
          created := db.now
          printer := printer_obj
          filament := filament_obj
          fields := f }
      let db1 : DB :=
        { db with costs := db.costs ++ [calculation], nextCostId := db.nextCostId + 1 }
      let notified := cost_changed send db.now calculation .added
      { result := .ok calculation, db := db1, published := notified.1, sendLog := notified.2 }

/-- The field-wise `x if x is not None else calculation.x` block of
`cost.update`. -/
def mergeCostFields (old new : CostFields) : CostFields :=
  { print_time_hours := match new.print_time_hours with
      | some v => some v | none => old.print_time_hours
    labor_time_hours := match new.labor_time_hours with
      | some v => some v | none => old.labor_time_hours
    filament_weight_g := match new.filament_weight_g with
      | some v => some v | none => old.filament_weight_g
    material_cost := match new.material_cost with
      | some v => some v | none => old.material_cost
    energy_cost := match new.energy_cost with
      | some v => some v | none => old.energy_cost
    depreciation_cost := match new.depreciation_cost with
      | some v => some v | none => old.depreciation_cost
    labor_cost := match new.labor_cost with
      | some v => some v | none => old.labor_cost
    consumables_cost := match new.consumables_cost with
      | some v => some v | none => old.consumables_cost
    failure_rate := match new.failure_rate with
      | some v => some v | none => old.failure_rate
    markup_rate := match new.markup_rate with
      | some v => some v | none => old.markup_rate
    base_price := match new.base_price with
      | some v => some v | none => old.base_price
    uplifted_price := match new.uplifted_price with
      | some v => some v | none => old.uplifted_price
    final_price := match new.final_price with
      | some v => some v | none => old.final_price
    currency := match new.currency with
      | some v => some v | none => old.currency
    notes := match new.notes with
      | some v => some v | none => old.notes }

/-- `spoolman.database.cost.update`: look the row up, re-resolve whichever
foreign keys are given (failure raises before commit and before any event),
merge the non-`None` fields, commit, then notify. -/
def cost_update (send : SendFn CostEvent) (db : DB) (calculation_id : Int)
    (printer_id filament_id : Option Int) (f : CostFields) : MutOut CostRow CostEvent :=
  match cost_get_by_id db calculation_id with
  | .error e => { result := .error e, db := db, published := [], sendLog := none }
  | .ok calculation =>
    let printerRes : Except Str (Option PrinterRow) :=
      match printer_id with
      | none => .ok calculation.printer
      | some pid =>
        match printer_get_by_id db pid with
        | .error e => .error e
        | .ok p => .ok (some p)
    match printerRes with
    | .error e => { result := .error e, db := db, published := [], sendLog := none }
    | .ok printer_obj =>
      let filamentRes : Except Str (Option FilamentRow) :=
        match filament_id with
        | none => .ok calculation.filament
        | some fid =>
          match filament_get_by_id db fid with
          | .error e => .error e
          | .ok fo => .ok (some fo)
      match filamentRes with
      | .error e => { result := .error e, db := db, published := [], sendLog := none }
      | .ok filament_obj =>
        let calculation' : CostRow :=
          { calculation with
              printer := printer_obj
              filament := filament_obj
              fields := mergeCostFields calculation.fields f }
        let db1 : DB :=
          { db with costs := db.costs.map (fun c => if c.id == calculation_id then calculation' else c) }
        let notified := cost_changed send db.now calculation' .updated
        { result := .ok calculation', db := db1, published := notified.1, sendLog := notified.2 }

/-- `spoolman.database.cost.delete`: look the row up (404 if absent), delete
it, commit, then notify. -/
def cost_delete (send : SendFn CostEvent) (db : DB) (calculation_id : Int) :
    MutOut Unit CostEvent :=
  match cost_get_by_id db calculation_id with
  | .error e => { result := .error e, db := db, published := [], sendLog := none }
  | .ok calculation =>
    let db1 : DB := { db with costs := db.costs.filter (fun c => !(c.id == calculation_id)) }
    let notified := cost_changed send db.now calculation .deleted
    { result := .ok (), db := db1, published := notified.1, sendLog := notified.2 }

/-- The keyword parameters declared by `spoolman.database.cost.create`
(keyword-only, lines 26-46): `db` plus the fifteen value columns and the two
foreign keys of the original migration.  `energy_cost_per_kwh`,
`labor_cost_per_hour` and `item_names` are NOT among them. -/
def cost_db_create_kwparams : List Str :=
  [str "db", str "printer_id", str "filament_id", str "print_time_hours",
   str "labor_time_hours", str "filament_weight_g", str "material_cost",
   str "energy_cost", str "depreciation_cost", str "labor_cost",
   str "consumables_cost", str "failure_rate", str "markup_rate",
   str "base_price", str "uplifted_price", str "final_price",
   str "currency", str "notes"]

/-- The keyword arguments passed by `spoolman.api.v1.cost.create` to
`cost_db.create` (lines 219-241), including `energy_cost_per_kwh`,
`labor_cost_per_hour` and `item_names` from the 2025-02-12 migration's new
columns. -/
def api_cost_create_kwargs : List Str :=
  [str "db", str "printer_id", str "filament_id", str "print_time_hours",
   str "labor_time_hours", str "filament_weight_g", str "material_cost",
   str "energy_cost", str "energy_cost_per_kwh", str "depreciation_cost",
   str "labor_cost", str "labor_cost_per_hour", str "consumables_cost",
   str "failure_rate", str "markup_rate", str "base_price",
   str "uplifted_price", str "final_price", str "currency",
   str "item_names", str "notes"]

/-- The keyword parameters declared by `spoolman.database.cost.update`
(keyword-only, lines 144-165): `db`, `calculation_id`, and the same set as
`create`. -/
def cost_db_update_kwparams : List Str :=
  str "calculation_id" :: cost_db_create_kwparams

/-- The keyword arguments passed by `spoolman.api.v1.cost.update` to
`cost_db.update` (lines 267-290): `calculation_id` plus the same set the
create endpoint passes. -/
def api_cost_update_kwargs : List Str :=
  str "calculation_id" :: api_cost_create_kwargs

/-- Python keyword-call acceptance: a call with keyword arguments `passed`
binds against a function whose (keyword-only, all defaulted except the ones
always passed) parameters are `declared` iff every passed name is declared;
otherwise the call raises `TypeError: got an unexpected keyword argument`
before the function body runs. -/
def kwargsAccepted (declared passed : List Str) : Bool :=
  passed.all (fun k => declared.contains k)

/-- The observable outcome of one cost API endpoint call. -/
inductive ApiResult (ρ : Type) where
  | success (r : ρ)
  | notFound (msg : Str)
  | typeError
deriving DecidableEq

/-- `spoolman.api.v1.cost.create`: the endpoint body calls `cost_db.create`
with the keyword arguments of `api_cost_create_kwargs`.  If Python rejects the
binding, the `TypeError` is raised before the database function body runs — no
row is added, nothing commits, no event is built — and it is not caught by the
surrounding `except ItemNotFoundError`.  Otherwise the call runs and
`ItemNotFoundError` maps to a 404 response.  (The values of the three
undeclared keywords can never reach the database layer, so they are not
parameters of the model.) -/
def api_cost_create (send : SendFn CostEvent) (db : DB)
    (printer_id filament_id : Option Int) (f : CostFields) :
    ApiResult CostRow × DB × List (Topic × CostEvent) :=
  if kwargsAccepted cost_db_create_kwparams api_cost_create_kwargs then
    let o := cost_create send db printer_id filament_id f
    match o.result with
    | .ok c => (.success c, o.db, o.published)
    | .error e => (.notFound e, o.db, o.published)
  else
    (.typeError, db, [])

/-- `spoolman.api.v1.cost.update`: same shape as the create endpoint, calling
`cost_db.update` with the keyword arguments of `api_cost_update_kwargs`. -/
def api_cost_update (send : SendFn CostEvent) (db : DB) (calculation_id : Int)
    (printer_id filament_id : Option Int) (f : CostFields) :
    ApiResult CostRow × DB × List (Topic × CostEvent) :=
  if kwargsAccepted cost_db_update_kwparams api_cost_update_kwargs then
    let o := cost_update send db calculation_id printer_id filament_id f
    match o.result with
    | .ok c => (.success c, o.db, o.published)
    | .error e => (.notFound e, o.db, o.published)
  else
    (.typeError, db, [])

/-- C1 counterexample: the claim says the unsubscribe runs on every exit path
of the websocket handler loop, so that after teardown the registry holds no
entry referencing the terminated session.  But the handlers only call
`websocket_manager.disconnect` inside `except WebSocketDisconnect:`; there is
no `finally`.  Starting from an empty registry, a session on topic
`("printer",)` torn down by external cancellation leaves its registry entry
behind. -/
theorem session_cleanup_cancellation_counterexample :
    (notifySession { websockets := [] } [str "printer"] 0 .cancelled).references 0 = true ∧
    (notifySession { websockets := [] } [str "printer"] 0 .otherError).references 0 = true := by
  constructor <;> rfl

/-- C1 (amended): the unsubscribe runs exactly on the `WebSocketDisconnect`
exit path.  After a teardown caused by peer disconnect the registry holds no
entry referencing the session (given it held none before the session started);
after a teardown caused by external cancellation or by any other exception the
session's entry is still present. -/
theorem session_cleanup_on_peer_disconnect_only :
    (∀ (m : WebsocketManager) (t : Topic) (c : ConnId),
        m.references c = false →
        (notifySession m t c .peerDisconnect).references c = false) ∧
    (∀ (m : WebsocketManager) (t : Topic) (c : ConnId),
        (notifySession m t c .cancelled).references c = true ∧
        (notifySession m t c .otherError).references c = true) := by
  constructor
  · intro m t c h
    unfold notifySession WebsocketManager.connect WebsocketManager.disconnect
      WebsocketManager.references at *
    rw [List.any_eq_false] at h ⊢
    intro p hp
    rw [List.mem_filter] at hp
    rcases hp with ⟨hp, hpred⟩
    rcases List.mem_cons.mp hp with hp1 | hp1
    · subst hp1
      simp at hpred
    · exact h p hp1
  · intro m t c
    constructor <;>
      · unfold notifySession WebsocketManager.connect WebsocketManager.references
        simp

/-- C1 amended-claim witness: a concrete peer-disconnect teardown leaves the
registry without the session. -/
theorem session_cleanup_on_peer_disconnect_only_witness :
    (notifySession { websockets := [([str "cost"], 3)] } [str "cost", str "5"] 9
        .peerDisconnect).references 9 = false :=
  session_cleanup_on_peer_disconnect_only.1 { websockets := [([str "cost"], 3)] }
    [str "cost", str "5"] 9 (by decide)

/-- C2: `publish(T, e)` delivers to exactly the connections holding a
subscription on `T` or on a strict prefix of `T` — and to no connection whose
subscriptions are all on other topics; in particular an event published under
`("printer", str(id))` reaches a subscriber of the collection topic
`("printer",)`. -/
theorem publish_ancestor_fanout :
    (∀ (m : WebsocketManager) (t : Topic) (c : ConnId),
        c ∈ m.send t ↔
          ∃ t', (t', c) ∈ m.websockets ∧ (t' = t ∨ strictPrefixTopic t' t = true)) ∧
    (∀ (m : WebsocketManager) (t : Topic) (c : ConnId),
        (∀ t', (t', c) ∈ m.websockets → ¬(t' = t ∨ strictPrefixTopic t' t = true)) →
        c ∉ m.send t) ∧
    (∀ (m : WebsocketManager) (c : ConnId) (i : Int),
        ([str "printer"], c) ∈ m.websockets →
        c ∈ m.send [str "printer", intToStr i]) := by
  have memIff : ∀ (m : WebsocketManager) (t : Topic) (c : ConnId),
      c ∈ m.send t ↔
        ∃ t', (t', c) ∈ m.websockets ∧ (t' = t ∨ strictPrefixTopic t' t = true) := by
    intro m t c
    unfold WebsocketManager.send
    rw [List.mem_map]
    constructor
    · rintro ⟨p, hp, hpc⟩
      rw [List.mem_filter] at hp
      rcases hp with ⟨hmem, hcond⟩
      refine ⟨p.1, ?_, ?_⟩
      · rw [show (p.1, c) = p from by rw [← hpc]]
        exact hmem
      · rcases Bool.or_eq_true_iff.mp hcond with h | h
        · left; exact eq_of_beq h
        · right; exact h
    · rintro ⟨t', hmem, hcond⟩
      refine ⟨(t', c), ?_, rfl⟩
      rw [List.mem_filter]
      refine ⟨hmem, ?_⟩
      rcases hcond with h | h
      · subst h
        simp
      · simp [h]
  refine ⟨memIff, ?_, ?_⟩
  · intro m t c hnone hmem
    rcases (memIff m t c).mp hmem with ⟨t', ht', hcond⟩
    exact hnone t' ht' hcond
  · intro m c i hmem
    refine (memIff m [str "printer", intToStr i] c).mpr ⟨[str "printer"], hmem, ?_⟩
    right
    rfl

/-- C2 witness: in a registry holding one collection-topic subscriber, an
event published under the item topic `("printer", "42")` is delivered to it. -/
theorem publish_ancestor_fanout_witness :
    7 ∈ (WebsocketManager.mk [([str "printer"], 7)]).send [str "printer", intToStr 42] :=
  publish_ancestor_fanout.2.2 (WebsocketManager.mk [([str "printer"], 7)]) 7 42 (by decide)

/-- C4: the cost-calculation create and update endpoints pass the keyword
arguments `energy_cost_per_kwh`, `labor_cost_per_hour` and `item_names` to the
keyword-only database functions, which do not declare them, so every
invocation raises `TypeError` before any row is persisted or any event is
published, and the endpoints can never return a success response. -/
theorem cost_endpoints_always_typeerror :
    (∀ (send : SendFn CostEvent) (db : DB) (pid fid : Option Int) (f : CostFields),
        api_cost_create send db pid fid f = (.typeError, db, [])) ∧
    (∀ (send : SendFn CostEvent) (db : DB) (cid : Int) (pid fid : Option Int)
        (f : CostFields),
        api_cost_update send db cid pid fid f = (.typeError, db, [])) ∧
    kwargsAccepted cost_db_create_kwparams api_cost_create_kwargs = false ∧
    kwargsAccepted cost_db_update_kwparams api_cost_update_kwargs = false ∧
    str "energy_cost_per_kwh" ∈ api_cost_create_kwargs ∧
    str "energy_cost_per_kwh" ∉ cost_db_create_kwparams ∧
    str "labor_cost_per_hour" ∈ api_cost_create_kwargs ∧
    str "labor_cost_per_hour" ∉ cost_db_create_kwparams ∧
    str "item_names" ∈ api_cost_create_kwargs ∧
    str "item_names" ∉ cost_db_create_kwparams := by
  have hcreate : kwargsAccepted cost_db_create_kwparams api_cost_create_kwargs = false := by
    decide
  have hupdate : kwargsAccepted cost_db_update_kwparams api_cost_update_kwargs = false := by
    decide
  refine ⟨?_, ?_, hcreate, hupdate, ?_, ?_, ?_, ?_, ?_, ?_⟩
  · intro send db pid fid f
    unfold api_cost_create
    rw [hcreate]
    rfl
  · intro send db cid pid fid f
    unfold api_cost_update
    rw [hupdate]
    rfl
  · decide
  · decide
  · decide
  · decide
  · decide
  · decide


/-- Lookup failure of a printer id that no row carries. -/
theorem printer_get_by_id_none (db : DB) (pid : Int)
    (h : ∀ p ∈ db.printers, p.id ≠ pid) :
    printer_get_by_id db pid =
      .error (str "No printer with ID " ++ intToStr pid ++ str " found.") := by
  unfold printer_get_by_id
  have hfind : db.printers.find? (fun p => p.id == pid) = none := by
    rw [List.find?_eq_none]
    intro p hp
    simpa using h p hp
  rw [hfind]

/-- Lookup failure of a filament id that no row carries. -/
theorem filament_get_by_id_none (db : DB) (fid : Int)
    (h : ∀ fl ∈ db.filaments, fl.id ≠ fid) :
    filament_get_by_id db fid =
      .error (str "No filament with ID " ++ intToStr fid ++ str " found.") := by
  unfold filament_get_by_id
  have hfind : db.filaments.find? (fun fl => fl.id == fid) = none := by
    rw [List.find?_eq_none]
    intro fl hfl
    simpa using h fl hfl
  rw [hfind]

/-- C5: a cost-calculation create whose `printer_id` or `filament_id`
references no existing row fails with the not-found error, leaves the database
unchanged (zero rows persisted) and publishes zero events — the foreign-key
resolution failure aborts before the entity is added, before commit and before
any event is built. -/
theorem cost_create_fk_notfound_aborts_clean :
    ∀ (send : SendFn CostEvent) (db : DB) (printer_id filament_id : Option Int)
      (f : CostFields),
      ((∃ pid, printer_id = some pid ∧ ∀ p ∈ db.printers, p.id ≠ pid) ∨
       (∃ fid, filament_id = some fid ∧ ∀ fl ∈ db.filaments, fl.id ≠ fid)) →
      (∃ e, (cost_create send db printer_id filament_id f).result = .error e) ∧
      (cost_create send db printer_id filament_id f).db = db ∧
      (cost_create send db printer_id filament_id f).published = [] ∧
      (cost_create send db printer_id filament_id f).sendLog = none := by
  intro send db printer_id filament_id f h
  rcases h with ⟨pid, hpid, hnone⟩ | ⟨fid, hfid, hnone⟩
  · subst hpid
    simp [cost_create, printer_get_by_id_none db pid hnone]
  · subst hfid
    cases hpr : printer_id with
    | none =>
      simp [cost_create, filament_get_by_id_none db fid hnone]
    | some pid =>
      cases hlook : printer_get_by_id db pid with
      | error e => simp [cost_create, hlook]
      | ok p => simp [cost_create, hlook, filament_get_by_id_none db fid hnone]

/-- A request body with every optional column left `None`. -/
def emptyCostFields : CostFields :=
  { print_time_hours := none, labor_time_hours := none, filament_weight_g := none,
    material_cost := none, energy_cost := none, depreciation_cost := none,
    labor_cost := none, consumables_cost := none, failure_rate := none,
    markup_rate := none, base_price := none, uplifted_price := none,
    final_price := none, currency := none, notes := none }

/-- A send function that always succeeds (no notification fault injected). -/
def sendOkCost : SendFn CostEvent := fun _ _ => .ok ()

/-- A send function for printer events that always succeeds. -/
def sendOkPrinter : SendFn PrinterEvent := fun _ _ => .ok ()

/-- An empty database state. -/
def emptyDB : DB :=
  { printers := [], filaments := [], costs := [],
    nextPrinterId := 1, nextCostId := 1, now := 0 }

/-- C5 witness: creating against the empty database with a dangling
`printer_id` fails, persists nothing and publishes nothing. -/
theorem cost_create_fk_notfound_aborts_clean_witness :
    (∃ e, (cost_create sendOkCost emptyDB (some 3) none emptyCostFields).result =
        .error e) ∧
    (cost_create sendOkCost emptyDB (some 3) none emptyCostFields).db = emptyDB ∧
    (cost_create sendOkCost emptyDB (some 3) none emptyCostFields).published = [] ∧
    (cost_create sendOkCost emptyDB (some 3) none emptyCostFields).sendLog = none :=
  cost_create_fk_notfound_aborts_clean sendOkCost emptyDB (some 3) none emptyCostFields
    (Or.inl ⟨3, rfl, by decide⟩)

/-- The publish attempt recorded by `printer_changed` does not depend on
whether the stream write succeeds: only the logged error does. -/
theorem printer_changed_pubs (send : SendFn PrinterEvent) (now : Nat)
    (p : PrinterRow) (typ : EventType) :
    (printer_changed send now p typ).1 = (printer_changed sendOkPrinter now p typ).1 := by
  simp only [printer_changed, sendOkPrinter]
  cases send [str "printer", intToStr p.id]
      { typ := typ, resource := str "printer", date := now, payload := p } <;> rfl

/-- The publish attempt recorded by `cost_changed` does not depend on whether
the stream write succeeds: only the logged error does. -/
theorem cost_changed_pubs (send : SendFn CostEvent) (now : Nat)
    (c : CostRow) (typ : EventType) :
    (cost_changed send now c typ).1 = (cost_changed sendOkCost now c typ).1 := by
  simp only [cost_changed, sendOkCost]
  cases send [str "cost", intToStr c.id]
      { typ := typ, resource := str "cost", date := now, payload := c } <;> rfl

/-- C6: for every mutation and every possible failure inside the change
notification step (the injected `send` fault), the failure never propagates to
the caller: the returned result, the database state and the published events
are exactly those of a run whose notification succeeds — a broken subscriber
cannot make a write operation appear to fail. -/
theorem mutation_isolated_from_send_failure :
    (∀ (send : SendFn PrinterEvent) (db : DB) (n : Str) (pw dep : Option Rat)
        (c : Option Str),
        (printer_create send db n pw dep c).result =
          (printer_create sendOkPrinter db n pw dep c).result ∧
        (printer_create send db n pw dep c).db =
          (printer_create sendOkPrinter db n pw dep c).db ∧
        (printer_create send db n pw dep c).published =
          (printer_create sendOkPrinter db n pw dep c).published) ∧
    (∀ (send : SendFn PrinterEvent) (db : DB) (pid : Int) (n : Option Str)
        (pw dep : Option Rat) (c : Option Str),
        (printer_update send db pid n pw dep c).result =
          (printer_update sendOkPrinter db pid n pw dep c).result ∧
        (printer_update send db pid n pw dep c).db =
          (printer_update sendOkPrinter db pid n pw dep c).db ∧
        (printer_update send db pid n pw dep c).published =
          (printer_update sendOkPrinter db pid n pw dep c).published) ∧
    (∀ (send : SendFn PrinterEvent) (db : DB) (pid : Int),
        (printer_delete send db pid).result = (printer_delete sendOkPrinter db pid).result ∧
        (printer_delete send db pid).db = (printer_delete sendOkPrinter db pid).db ∧
        (printer_delete send db pid).published =
          (printer_delete sendOkPrinter db pid).published) ∧
    (∀ (send : SendFn CostEvent) (db : DB) (pid fid : Option Int) (f : CostFields),
        (cost_create send db pid fid f).result = (cost_create sendOkCost db pid fid f).result ∧
        (cost_create send db pid fid f).db = (cost_create sendOkCost db pid fid f).db ∧
        (cost_create send db pid fid f).published =
          (cost_create sendOkCost db pid fid f).published) ∧
    (∀ (send : SendFn CostEvent) (db : DB) (cid : Int) (pid fid : Option Int)
        (f : CostFields),
        (cost_update send db cid pid fid f).result =
          (cost_update sendOkCost db cid pid fid f).result ∧
        (cost_update send db cid pid fid f).db =
          (cost_update sendOkCost db cid pid fid f).db ∧
        (cost_update send db cid pid fid f).published =
          (cost_update sendOkCost db cid pid fid f).published) ∧
    (∀ (send : SendFn CostEvent) (db : DB) (cid : Int),
        (cost_delete send db cid).result = (cost_delete sendOkCost db cid).result ∧
        (cost_delete send db cid).db = (cost_delete sendOkCost db cid).db ∧
        (cost_delete send db cid).published = (cost_delete sendOkCost db cid).published) := by
  refine ⟨?_, ?_, ?_, ?_, ?_, ?_⟩
  · intro send db n pw dep c
    simp [printer_create, printer_changed_pubs]
  · intro send db pid n pw dep c
    cases hlook : printer_get_by_id db pid with
    | error e => simp [printer_update, hlook]
    | ok p =>
      simp [printer_update, hlook, printer_changed_pubs]
  · intro send db pid
    cases hlook : printer_get_by_id db pid with
    | error e => simp [printer_delete, hlook]
    | ok p =>
      simp [printer_delete, hlook, printer_changed_pubs]
  · intro send db pid fid f
    cases pid with
    | none =>
      cases fid with
      | none =>
        simp [cost_create, cost_changed_pubs]
      | some fv =>
        cases hfl : filament_get_by_id db fv with
        | error e => simp [cost_create, hfl]
        | ok fo =>
          simp [cost_create, hfl, cost_changed_pubs]
    | some pv =>
      cases hpl : printer_get_by_id db pv with
      | error e => simp [cost_create, hpl]
      | ok po =>
        cases fid with
        | none =>
          simp [cost_create, hpl, cost_changed_pubs]
        | some fv =>
          cases hfl : filament_get_by_id db fv with
          | error e => simp [cost_create, hpl, hfl]
          | ok fo =>
            simp [cost_create, hpl, hfl, cost_changed_pubs]
  · intro send db cid pid fid f
    cases hc : cost_get_by_id db cid with
    | error e => simp [cost_update, hc]
    | ok calc0 =>
      cases pid with
      | none =>
        cases fid with
        | none =>
          simp [cost_update, hc, cost_changed_pubs]
        | some fv =>
          cases hfl : filament_get_by_id db fv with
          | error e => simp [cost_update, hc, hfl]
          | ok fo =>
            simp [cost_update, hc, hfl, cost_changed_pubs]
      | some pv =>
        cases hpl : printer_get_by_id db pv with
        | error e => simp [cost_update, hc, hpl]
        | ok po =>
          cases fid with
          | none =>
            simp [cost_update, hc, hpl, cost_changed_pubs]
          | some fv =>
            cases hfl : filament_get_by_id db fv with
            | error e => simp [cost_update, hc, hpl, hfl]
            | ok fo =>
              simp [cost_update, hc, hpl, hfl, cost_changed_pubs]
  · intro send db cid
    cases hc : cost_get_by_id db cid with
    | error e => simp [cost_delete, hc]
    | ok calc0 =>
      simp [cost_delete, hc, cost_changed_pubs]

/-- `printer_changed` always records exactly one publish attempt, to the topic
`("printer", str(id))`, carrying the event type, the resource name, the clock
and the row snapshot. -/
theorem printer_changed_publishes (send : SendFn PrinterEvent) (now : Nat)
    (p : PrinterRow) (typ : EventType) :
    (printer_changed send now p typ).1 =
      [([str "printer", intToStr p.id],
        { typ := typ, resource := str "printer", date := now, payload := p })] := by
  simp only [printer_changed]
  cases send [str "printer", intToStr p.id]
      { typ := typ, resource := str "printer", date := now, payload := p } <;> rfl

/-- `cost_changed` always records exactly one publish attempt, to the topic
`("cost", str(id))`, carrying the event type, the resource name, the clock and
the row snapshot with its one-level-resolved relations. -/
theorem cost_changed_publishes (send : SendFn CostEvent) (now : Nat)
    (c : CostRow) (typ : EventType) :
    (cost_changed send now c typ).1 =
      [([str "cost", intToStr c.id],
        { typ := typ, resource := str "cost", date := now, payload := c })] := by
  simp only [cost_changed]
  cases send [str "cost", intToStr c.id]
      { typ := typ, resource := str "cost", date := now, payload := c } <;> rfl

/-- C7: every successful mutation publishes exactly one event, to the topic
`[resource, id]` of the mutated entity, whose type matches the mutation kind
(`added` for create, `updated` for update, `deleted` for delete), whose
resource field names the entity kind, and whose payload is the snapshot of the
mutated row (with its directly-related entities resolved one level deep, which
the row model carries). -/
theorem mutation_publishes_single_event :
    (∀ (send : SendFn PrinterEvent) (db : DB) (n : Str) (pw dep : Option Rat)
        (c : Option Str) (r : PrinterRow),
        (printer_create send db n pw dep c).result = .ok r →
        (printer_create send db n pw dep c).published =
          [([str "printer", intToStr r.id],
            { typ := .added, resource := str "printer", date := db.now, payload := r })]) ∧
    (∀ (send : SendFn PrinterEvent) (db : DB) (pid : Int) (n : Option Str)
        (pw dep : Option Rat) (c : Option Str) (r : PrinterRow),
        (printer_update send db pid n pw dep c).result = .ok r →
        (printer_update send db pid n pw dep c).published =
          [([str "printer", intToStr r.id],
            { typ := .updated, resource := str "printer", date := db.now, payload := r })]) ∧
    (∀ (send : SendFn PrinterEvent) (db : DB) (pid : Int) (p : PrinterRow),
        printer_get_by_id db pid = .ok p →
        (printer_delete send db pid).published =
          [([str "printer", intToStr p.id],
            { typ := .deleted, resource := str "printer", date := db.now, payload := p })]) ∧
    (∀ (send : SendFn CostEvent) (db : DB) (pid fid : Option Int) (f : CostFields)
        (r : CostRow),
        (cost_create send db pid fid f).result = .ok r →
        (cost_create send db pid fid f).published =
          [([str "cost", intToStr r.id],
            { typ := .added, resource := str "cost", date := db.now, payload := r })]) ∧
    (∀ (send : SendFn CostEvent) (db : DB) (cid : Int) (pid fid : Option Int)
        (f : CostFields) (r : CostRow),
        (cost_update send db cid pid fid f).result = .ok r →
        (cost_update send db cid pid fid f).published =
          [([str "cost", intToStr r.id],
            { typ := .updated, resource := str "cost", date := db.now, payload := r })]) ∧
    (∀ (send : SendFn CostEvent) (db : DB) (cid : Int) (c0 : CostRow),
        cost_get_by_id db cid = .ok c0 →
        (cost_delete send db cid).published =
          [([str "cost", intToStr c0.id],
            { typ := .deleted, resource := str "cost", date := db.now, payload := c0 })]) := by
  refine ⟨?_, ?_, ?_, ?_, ?_, ?_⟩
  · intro send db n pw dep c r h
    simp only [printer_create] at h
    injection h with h
    subst h
    simp [printer_create, printer_changed_publishes]
  · intro send db pid n pw dep c r h
    cases hlook : printer_get_by_id db pid with
    | error e => simp [printer_update, hlook] at h
    | ok p =>
      simp only [printer_update, hlook] at h
      injection h with h
      subst h
      simp [printer_update, hlook, printer_changed_publishes]
  · intro send db pid p hlook
    simp [printer_delete, hlook, printer_changed_publishes]
  · intro send db pid fid f r h
    cases pid with
    | none =>
      cases fid with
      | none =>
        simp only [cost_create] at h
        injection h with h
        subst h
        simp [cost_create, cost_changed_publishes]
      | some fv =>
        cases hfl : filament_get_by_id db fv with
        | error e => simp [cost_create, hfl] at h
        | ok fo =>
          simp only [cost_create, hfl] at h
          injection h with h
          subst h
          simp [cost_create, hfl, cost_changed_publishes]
    | some pv =>
      cases hpl : printer_get_by_id db pv with
      | error e => simp [cost_create, hpl] at h
      | ok po =>
        cases fid with
        | none =>
          simp only [cost_create, hpl] at h
          injection h with h
          subst h
          simp [cost_create, hpl, cost_changed_publishes]
        | some fv =>
          cases hfl : filament_get_by_id db fv with
          | error e => simp [cost_create, hpl, hfl] at h
          | ok fo =>
            simp only [cost_create, hpl, hfl] at h
            injection h with h
            subst h
            simp [cost_create, hpl, hfl, cost_changed_publishes]
  · intro send db cid pid fid f r h
    cases hc : cost_get_by_id db cid with
    | error e => simp [cost_update, hc] at h
    | ok calc0 =>
      cases pid with
      | none =>
        cases fid with
        | none =>
          simp only [cost_update, hc] at h
          injection h with h
          subst h
          simp [cost_update, hc, cost_changed_publishes]
        | some fv =>
          cases hfl : filament_get_by_id db fv with
          | error e => simp [cost_update, hc, hfl] at h
          | ok fo =>
            simp only [cost_update, hc, hfl] at h
            injection h with h
            subst h
            simp [cost_update, hc, hfl, cost_changed_publishes]
      | some pv =>
        cases hpl : printer_get_by_id db pv with
        | error e => simp [cost_update, hc, hpl] at h
        | ok po =>
          cases fid with
          | none =>
            simp only [cost_update, hc, hpl] at h
            injection h with h
            subst h
            simp [cost_update, hc, hpl, cost_changed_publishes]
          | some fv =>
            cases hfl : filament_get_by_id db fv with
            | error e => simp [cost_update, hc, hpl, hfl] at h
            | ok fo =>
              simp only [cost_update, hc, hpl, hfl] at h
              injection h with h
              subst h
              simp [cost_update, hc, hpl, hfl, cost_changed_publishes]
  · intro send db cid c0 hc
    simp [cost_delete, hc, cost_changed_publishes]

/-- A one-printer fixture row. -/
def witPrinter : PrinterRow :=
  { id := 1, registered := 0, name := str "P", power_watts := none,
    depreciation_cost_per_hour := none, comment := none }

/-- A one-filament fixture row. -/
def witFilament : FilamentRow := { id := 1 }

/-- A one-cost-calculation fixture row. -/
def witCost : CostRow :=
  { id := 1, created := 0, printer := none, filament := none, fields := emptyCostFields }

/-- A small populated database fixture. -/
def witDB : DB :=
  { printers := [witPrinter], filaments := [witFilament], costs := [witCost],
    nextPrinterId := 2, nextCostId := 2, now := 5 }

/-- C7 witness: each of the six mutations, run concretely, publishes exactly
the single expected event. -/
theorem mutation_publishes_single_event_witness :
    (printer_create sendOkPrinter witDB (str "N") none none none).published =
      [([str "printer", intToStr 2],
        { typ := .added, resource := str "printer", date := 5,
          payload := { id := 2, registered := 5, name := str "N", power_watts := none,
                       depreciation_cost_per_hour := none, comment := none } })] ∧
    (printer_update sendOkPrinter witDB 1 none none none none).published =
      [([str "printer", intToStr 1],
        { typ := .updated, resource := str "printer", date := 5, payload := witPrinter })] ∧
    (printer_delete sendOkPrinter witDB 1).published =
      [([str "printer", intToStr 1],
        { typ := .deleted, resource := str "printer", date := 5, payload := witPrinter })] ∧
    (cost_create sendOkCost witDB none none emptyCostFields).published =
      [([str "cost", intToStr 2],
        { typ := .added, resource := str "cost", date := 5,
          payload := { id := 2, created := 5, printer := none, filament := none,
                       fields := emptyCostFields } })] ∧
    (cost_update sendOkCost witDB 1 none none emptyCostFields).published =
      [([str "cost", intToStr 1],
        { typ := .updated, resource := str "cost", date := 5, payload := witCost })] ∧
    (cost_delete sendOkCost witDB 1).published =
      [([str "cost", intToStr 1],
        { typ := .deleted, resource := str "cost", date := 5, payload := witCost })] := by
  refine ⟨?_, ?_, ?_, ?_, ?_, ?_⟩
  · exact mutation_publishes_single_event.1 sendOkPrinter witDB (str "N") none none none _ rfl
  · exact mutation_publishes_single_event.2.1 sendOkPrinter witDB 1 none none none none
      witPrinter rfl
  · exact mutation_publishes_single_event.2.2.1 sendOkPrinter witDB 1 witPrinter rfl
  · exact mutation_publishes_single_event.2.2.2.1 sendOkCost witDB none none emptyCostFields
      _ rfl
  · exact mutation_publishes_single_event.2.2.2.2.1 sendOkCost witDB 1 none none
      emptyCostFields witCost rfl
  · exact mutation_publishes_single_event.2.2.2.2.2 sendOkCost witDB 1 witCost rfl

/-- Characterization of a successful `printer_find`: the sort spec resolved,
and the page/total are computed from the filtered and sorted row set. -/
theorem printer_find_ok_elim {rows : List PrinterRow} {name : Option Str}
    {sort_by : List (Str × SortOrder)} {limit : Option Nat} {offset : Nat}
    {items : List PrinterRow} {total : Nat}
    (h : printer_find rows name sort_by limit offset = .ok (items, total)) :
    ∃ specs, resolveSort printerSortField sort_by = .ok specs ∧
      ((∃ l, limit = some l ∧
          items = ((List.insertionSort (lexRel specs)
            (rows.filter (fun r => matchesNameFilter name r.name))).drop offset).take l ∧
          total = (rows.filter (fun r => matchesNameFilter name r.name)).length) ∨
       (limit = none ∧
          items = List.insertionSort (lexRel specs)
            (rows.filter (fun r => matchesNameFilter name r.name)) ∧
          total = items.length)) := by
  cases hres : resolveSort printerSortField sort_by with
  | error e => simp [printer_find, hres] at h
  | ok specs =>
    refine ⟨specs, rfl, ?_⟩
    cases limit with
    | some l =>
      left
      simp only [printer_find, hres, Except.ok.injEq, Prod.mk.injEq] at h
      exact ⟨l, rfl, h.1.symm, h.2.symm⟩
    | none =>
      right
      simp only [printer_find, hres, Except.ok.injEq, Prod.mk.injEq] at h
      refine ⟨rfl, h.1.symm, ?_⟩
      rw [← h.1, ← h.2]

/-- Characterization of a successful `cost_find`, mirroring
`printer_find_ok_elim`. -/
theorem cost_find_ok_elim {rows : List CostRow} {printer_id filament_id : Option (List Int)}
    {sort_by : List (Str × SortOrder)} {limit : Option Nat} {offset : Nat}
    {items : List CostRow} {total : Nat}
    (h : cost_find rows printer_id filament_id sort_by limit offset = .ok (items, total)) :
    ∃ specs, resolveSort costSortField sort_by = .ok specs ∧
      ((∃ l, limit = some l ∧
          items = ((List.insertionSort (lexRel specs)
            (rows.filter (fun r => matchIntFilter printer_id r.printerId &&
              matchIntFilter filament_id r.filamentId))).drop offset).take l ∧
          total = (rows.filter (fun r => matchIntFilter printer_id r.printerId &&
            matchIntFilter filament_id r.filamentId)).length) ∨
       (limit = none ∧
          items = List.insertionSort (lexRel specs)
            (rows.filter (fun r => matchIntFilter printer_id r.printerId &&
              matchIntFilter filament_id r.filamentId)) ∧
          total = items.length)) := by
  cases hres : resolveSort costSortField sort_by with
  | error e => simp [cost_find, hres] at h
  | ok specs =>
    refine ⟨specs, rfl, ?_⟩
    cases limit with
    | some l =>
      left
      simp only [cost_find, hres, Except.ok.injEq, Prod.mk.injEq] at h
      exact ⟨l, rfl, h.1.symm, h.2.symm⟩
    | none =>
      right
      simp only [cost_find, hres, Except.ok.injEq, Prod.mk.injEq] at h
      refine ⟨rfl, h.1.symm, ?_⟩
      rw [← h.1, ← h.2]

/-- C3: for every find query, when a limit is set the returned `total_count`
is the count of rows matching all filters before limit/offset (and the page
holds `min limit (total - offset)` items, so limit=2, offset=0 over 5 matching
rows gives 2 items and total 5); when the limit is unset all matching rows are
returned and `total_count` is the number of rows returned; in every case
`total_count` is at least the number of items returned. -/
theorem find_total_count_pagination :
    (∀ (rows : List PrinterRow) (name : Option Str) (sort_by : List (Str × SortOrder))
        (l offset : Nat) (items : List PrinterRow) (total : Nat),
        printer_find rows name sort_by (some l) offset = .ok (items, total) →
        total = (rows.filter (fun r => matchesNameFilter name r.name)).length ∧
        items.length = min l (total - offset)) ∧
    (∀ (rows : List PrinterRow) (name : Option Str) (sort_by : List (Str × SortOrder))
        (offset : Nat) (items : List PrinterRow) (total : Nat),
        printer_find rows name sort_by none offset = .ok (items, total) →
        total = items.length ∧
        items.Perm (rows.filter (fun r => matchesNameFilter name r.name))) ∧
    (∀ (rows : List PrinterRow) (name : Option Str) (sort_by : List (Str × SortOrder))
        (limit : Option Nat) (offset : Nat) (items : List PrinterRow) (total : Nat),
        printer_find rows name sort_by limit offset = .ok (items, total) →
        items.length ≤ total) ∧
    (∀ (rows : List CostRow) (pids fids : Option (List Int))
        (sort_by : List (Str × SortOrder)) (l offset : Nat) (items : List CostRow)
        (total : Nat),
        cost_find rows pids fids sort_by (some l) offset = .ok (items, total) →
        total = (rows.filter (fun r => matchIntFilter pids r.printerId &&
          matchIntFilter fids r.filamentId)).length ∧
        items.length = min l (total - offset)) ∧
    (∀ (rows : List CostRow) (pids fids : Option (List Int))
        (sort_by : List (Str × SortOrder)) (offset : Nat) (items : List CostRow)
        (total : Nat),
        cost_find rows pids fids sort_by none offset = .ok (items, total) →
        total = items.length ∧
        items.Perm (rows.filter (fun r => matchIntFilter pids r.printerId &&
          matchIntFilter fids r.filamentId))) ∧
    (∀ (rows : List CostRow) (pids fids : Option (List Int))
        (sort_by : List (Str × SortOrder)) (limit : Option Nat) (offset : Nat)
        (items : List CostRow) (total : Nat),
        cost_find rows pids fids sort_by limit offset = .ok (items, total) →
        items.length ≤ total) := by
  refine ⟨?_, ?_, ?_, ?_, ?_, ?_⟩
  · intro rows name sort_by l offset items total h
    rcases printer_find_ok_elim h with ⟨specs, _, ⟨l', hl, hitems, htotal⟩ | ⟨hl, _, _⟩⟩
    · obtain rfl : l' = l := by injection hl.symm
      subst hitems htotal
      refine ⟨rfl, ?_⟩
      rw [List.length_take, List.length_drop,
        (List.perm_insertionSort (lexRel specs) _).length_eq]
    · exact absurd hl (by simp)
  · intro rows name sort_by offset items total h
    rcases printer_find_ok_elim h with ⟨specs, _, ⟨l', hl, _, _⟩ | ⟨_, hitems, htotal⟩⟩
    · exact absurd hl (by simp)
    · subst hitems
      exact ⟨htotal, List.perm_insertionSort (lexRel specs) _⟩
  · intro rows name sort_by limit offset items total h
    rcases printer_find_ok_elim h with ⟨specs, _, ⟨l', hl, hitems, htotal⟩ | ⟨_, _, htotal⟩⟩
    · subst hitems htotal
      rw [List.length_take, List.length_drop,
        (List.perm_insertionSort (lexRel specs) _).length_eq]
      omega
    · omega
  · intro rows pids fids sort_by l offset items total h
    rcases cost_find_ok_elim h with ⟨specs, _, ⟨l', hl, hitems, htotal⟩ | ⟨hl, _, _⟩⟩
    · obtain rfl : l' = l := by injection hl.symm
      subst hitems htotal
      refine ⟨rfl, ?_⟩
      rw [List.length_take, List.length_drop,
        (List.perm_insertionSort (lexRel specs) _).length_eq]
    · exact absurd hl (by simp)
  · intro rows pids fids sort_by offset items total h
    rcases cost_find_ok_elim h with ⟨specs, _, ⟨l', hl, _, _⟩ | ⟨_, hitems, htotal⟩⟩
    · exact absurd hl (by simp)
    · subst hitems
      exact ⟨htotal, List.perm_insertionSort (lexRel specs) _⟩
  · intro rows pids fids sort_by limit offset items total h
    rcases cost_find_ok_elim h with ⟨specs, _, ⟨l', hl, hitems, htotal⟩ | ⟨_, _, htotal⟩⟩
    · subst hitems htotal
      rw [List.length_take, List.length_drop,
        (List.perm_insertionSort (lexRel specs) _).length_eq]
      omega
    · omega

/-- A printer fixture row with a given id. -/
def wp (i : Int) : PrinterRow :=
  { id := i, registered := 0, name := str "A", power_watts := none,
    depreciation_cost_per_hour := none, comment := none }

/-- Five printer fixture rows, all matching an absent name filter. -/
def fiveRows : List PrinterRow := [wp 1, wp 2, wp 3, wp 4, wp 5]

/-- A cost fixture row with a given id. -/
def wc (i : Int) : CostRow :=
  { id := i, created := 0, printer := none, filament := none, fields := emptyCostFields }

/-- Three cost fixture rows. -/
def threeCosts : List CostRow := [wc 1, wc 2, wc 3]

/-- C3 witness: a query with limit=2, offset=0 over 5 matching rows returns
exactly 2 items and reports total 5; the unlimited query returns all 5; the
cost find behaves alike. -/
theorem find_total_count_pagination_witness :
    (5 = (fiveRows.filter (fun r => matchesNameFilter none r.name)).length ∧
      ([wp 1, wp 2] : List PrinterRow).length = min 2 (5 - 0)) ∧
    (5 = (fiveRows : List PrinterRow).length ∧
      fiveRows.Perm (fiveRows.filter (fun r => matchesNameFilter none r.name))) ∧
    ([wp 1, wp 2] : List PrinterRow).length ≤ 5 ∧
    (3 = (threeCosts.filter (fun r => matchIntFilter none r.printerId &&
        matchIntFilter none r.filamentId)).length ∧
      ([wc 2] : List CostRow).length = min 1 (3 - 1)) ∧
    (3 = (threeCosts : List CostRow).length ∧
      threeCosts.Perm (threeCosts.filter (fun r => matchIntFilter none r.printerId &&
        matchIntFilter none r.filamentId))) ∧
    ([wc 2] : List CostRow).length ≤ 3 :=
  ⟨find_total_count_pagination.1 fiveRows none [] 2 0 [wp 1, wp 2] 5 rfl,
   find_total_count_pagination.2.1 fiveRows none [] 0 fiveRows 5 rfl,
   find_total_count_pagination.2.2.1 fiveRows none [] (some 2) 0 [wp 1, wp 2] 5 rfl,
   find_total_count_pagination.2.2.2.1 threeCosts none none [] 1 1 [wc 2] 3 rfl,
   find_total_count_pagination.2.2.2.2.1 threeCosts none none [] 0 threeCosts 3 rfl,
   find_total_count_pagination.2.2.2.2.2 threeCosts none none [] (some 1) 1 [wc 2] 3 rfl⟩

/-- Unfolding of the two-key lexicographic order: the first key is primary and
the second only decides its ties. -/
theorem lexRel_two {α : Type} (k1 k2 : SortKeySpec α) (a b : α)
    (h : lexRel [k1, k2] a b) :
    keyLeb k1 a b = true ∧ (keyLeb k1 b a = true → keyLeb k2 a b = true) := by
  unfold lexRel at h
  simp only [lexLeb] at h
  by_cases h1 : keyLeb k1 a b = true
  · refine ⟨h1, ?_⟩
    intro h2
    rw [if_pos h1, if_pos h2] at h
    by_cases h3 : keyLeb k2 a b = true
    · exact h3
    · rw [if_neg h3] at h
      exact absurd h (by simp)
  · rw [if_neg h1] at h
    exact absurd h (by simp)

/-- C8: a sort parameter listing several `field:direction` pairs is parsed in
listed order, the pairs are applied as successive sort keys (the result is
sorted under the lexicographic order of the resolved keys, the first pair
primary), so `"power_watts:asc,name:desc"` orders primarily by ascending
power with ties broken by descending name; an unknown direction or an unknown
field is a resolution failure raised before the query yields rows. -/
theorem sort_multikey_order :
    parseSortSpec (some (str "power_watts:asc,name:desc")) =
      .ok [(str "power_watts", SortOrder.ASC), (str "name", SortOrder.DESC)] ∧
    (∀ (rows : List PrinterRow) (name : Option Str) (sort_by : List (Str × SortOrder))
        (specs : List (SortKeySpec PrinterRow)) (limit : Option Nat) (offset : Nat)
        (items : List PrinterRow) (total : Nat),
        resolveSort printerSortField sort_by = .ok specs →
        printer_find rows name sort_by limit offset = .ok (items, total) →
        items.Pairwise (lexRel specs)) ∧
    (∀ (rows : List CostRow) (pids fids : Option (List Int))
        (sort_by : List (Str × SortOrder)) (specs : List (SortKeySpec CostRow))
        (limit : Option Nat) (offset : Nat) (items : List CostRow) (total : Nat),
        resolveSort costSortField sort_by = .ok specs →
        cost_find rows pids fids sort_by limit offset = .ok (items, total) →
        items.Pairwise (lexRel specs)) ∧
    (∀ (rows items : List PrinterRow) (total : Nat),
        api_printer_find rows none (some (str "power_watts:asc,name:desc")) none 0 =
          .ok (items, total) →
        items.Pairwise (fun a b =>
          SortKey.leb (optRatKey a.power_watts) (optRatKey b.power_watts) = true ∧
          (SortKey.leb (optRatKey b.power_watts) (optRatKey a.power_watts) = true →
            listCharLe b.name a.name = true))) ∧
    parseSortSpec (some (str "name:upwards")) = .error (str "KeyError: upwards") ∧
    (∀ (rows : List PrinterRow) (name : Option Str) (limit : Option Nat) (offset : Nat),
        printer_find rows name [(str "power_wattz", SortOrder.ASC)] limit offset =
          .error (str "Invalid field name power_wattz")) := by
  have sortedPart : ∀ (rows : List PrinterRow) (name : Option Str)
      (sort_by : List (Str × SortOrder)) (specs : List (SortKeySpec PrinterRow))
      (limit : Option Nat) (offset : Nat) (items : List PrinterRow) (total : Nat),
      resolveSort printerSortField sort_by = .ok specs →
      printer_find rows name sort_by limit offset = .ok (items, total) →
      items.Pairwise (lexRel specs) := by
    intro rows name sort_by specs limit offset items total hres h
    rcases printer_find_ok_elim h with ⟨specs', hres', hcases⟩
    rw [hres] at hres'
    injection hres' with hres'
    subst hres'
    haveI : IsTotal PrinterRow (lexRel specs) := ⟨lexRel_total specs⟩
    haveI : IsTrans PrinterRow (lexRel specs) := ⟨lexRel_trans specs⟩
    have hs := List.sorted_insertionSort (lexRel specs)
      (rows.filter (fun r => matchesNameFilter name r.name))
    rcases hcases with ⟨l, _, hitems, _⟩ | ⟨_, hitems, _⟩
    · subst hitems
      exact List.Pairwise.sublist
        ((List.take_sublist _ _).trans (List.drop_sublist _ _)) hs
    · subst hitems
      exact hs
  refine ⟨rfl, sortedPart, ?_, ?_, rfl, ?_⟩
  · intro rows pids fids sort_by specs limit offset items total hres h
    rcases cost_find_ok_elim h with ⟨specs', hres', hcases⟩
    rw [hres] at hres'
    injection hres' with hres'
    subst hres'
    haveI : IsTotal CostRow (lexRel specs) := ⟨lexRel_total specs⟩
    haveI : IsTrans CostRow (lexRel specs) := ⟨lexRel_trans specs⟩
    have hs := List.sorted_insertionSort (lexRel specs)
      (rows.filter (fun r => matchIntFilter pids r.printerId &&
        matchIntFilter fids r.filamentId))
    rcases hcases with ⟨l, _, hitems, _⟩ | ⟨_, hitems, _⟩
    · subst hitems
      exact List.Pairwise.sublist
        ((List.take_sublist _ _).trans (List.drop_sublist _ _)) hs
    · subst hitems
      exact hs
  · intro rows items total h
    have hred : api_printer_find rows none (some (str "power_watts:asc,name:desc")) none 0 =
        printer_find rows none
          [(str "power_watts", SortOrder.ASC), (str "name", SortOrder.DESC)] none 0 := rfl
    rw [hred] at h
    have hp := sortedPart rows none
      [(str "power_watts", SortOrder.ASC), (str "name", SortOrder.DESC)]
      [{ key := fun r => optRatKey r.power_watts, order := SortOrder.ASC },
       { key := fun r => SortKey.s r.name, order := SortOrder.DESC }]
      none 0 items total rfl h
    exact hp.imp (fun hab => lexRel_two _ _ _ _ hab)
  · intro rows name limit offset
    rfl

/-- A printer fixture row with a given id, power and name. -/
def wps (i : Int) (pw : Rat) (nm : String) : PrinterRow :=
  { id := i, registered := 0, name := str nm, power_watts := some pw,
    depreciation_cost_per_hour := none, comment := none }

/-- C8 witness: a concrete find with `"power_watts:asc,name:desc"` over rows
with a power tie is ordered primarily by ascending power, the tie broken by
descending name. -/
theorem sort_multikey_order_witness :
    ([wps 3 250 "C", wps 2 250 "A", wps 1 300 "B"] : List PrinterRow).Pairwise
      (fun a b =>
        SortKey.leb (optRatKey a.power_watts) (optRatKey b.power_watts) = true ∧
        (SortKey.leb (optRatKey b.power_watts) (optRatKey a.power_watts) = true →
          listCharLe b.name a.name = true)) :=
  sort_multikey_order.2.2.2.1 [wps 1 300 "B", wps 2 250 "A", wps 3 250 "C"]
    [wps 3 250 "C", wps 2 250 "A", wps 1 300 "B"] 3 rfl

/-- C9: a string-field filter value is split on commas into terms OR'd
together; an unquoted term matches by case-insensitive substring and a quoted
term by case-insensitive exact equality — so `'"Exact Name"'` matches a row
named `Exact Name` but not one named `Exact Name Pro`; and the rows a find
returns are exactly the rows matching the filter. -/
theorem string_filter_semantics :
    (∀ (rows : List PrinterRow) (f : Str) (sort_by : List (Str × SortOrder))
        (items : List PrinterRow) (total : Nat),
        printer_find rows (some f) sort_by none 0 = .ok (items, total) →
        ∀ r, r ∈ items ↔ r ∈ rows ∧ matchesNameFilter (some f) r.name = true) ∧
    (∀ (f v : Str),
        matchesNameFilter (some f) v =
          (splitOnChar ',' f).any (fun t => strFilterTermMatches t v)) ∧
    strFilterTermMatches (str "\"Exact Name\"") (str "Exact Name") = true ∧
    strFilterTermMatches (str "\"Exact Name\"") (str "Exact Name Pro") = false ∧
    strFilterTermMatches (str "\"exact name\"") (str "EXACT NAME") = true ∧
    strFilterTermMatches (str "act nam") (str "Exact Name Pro") = true ∧
    strFilterTermMatches (str "zzz") (str "Exact Name") = false ∧
    matchesNameFilter (some (str "alpha,beta")) (str "The Beta One") = true ∧
    matchesNameFilter (some (str "alpha,beta")) (str "Gamma") = false := by
  refine ⟨?_, ?_, ?_, ?_, ?_, ?_, ?_, ?_, ?_⟩
  · intro rows f sort_by items total h r
    rcases printer_find_ok_elim h with ⟨specs, _, ⟨l, hl, _, _⟩ | ⟨_, hitems, _⟩⟩
    · exact absurd hl (by simp)
    · subst hitems
      rw [(List.perm_insertionSort (lexRel specs) _).mem_iff, List.mem_filter]
  · intro f v
    rfl
  · decide
  · decide
  · decide
  · decide
  · decide
  · decide
  · decide

/-- A printer fixture row with a given id and name. -/
def wpn (i : Int) (nm : String) : PrinterRow :=
  { id := i, registered := 0, name := str nm, power_watts := none,
    depreciation_cost_per_hour := none, comment := none }

/-- C9 witness: filtering two concrete rows with the quoted term
`'"Exact Name"'` returns exactly the row with that exact (case-insensitive)
name and not the `Exact Name Pro` row. -/
theorem string_filter_semantics_witness :
    ∀ r, r ∈ ([wpn 1 "Exact Name"] : List PrinterRow) ↔
      r ∈ ([wpn 1 "Exact Name", wpn 2 "Exact Name Pro"] : List PrinterRow) ∧
      matchesNameFilter (some (str "\"Exact Name\"")) r.name = true :=
  string_filter_semantics.1 [wpn 1 "Exact Name", wpn 2 "Exact Name Pro"]
    (str "\"Exact Name\"") [] [wpn 1 "Exact Name"] 1 rfl

/-- C10: an id filter parses as comma-separated integers where `-1` is a
sentinel matching only rows whose field is absent; a list combining `-1` with
concrete ids matches rows whose id is among the listed values OR whose field
is absent; and the rows a find returns are exactly the rows matching the
filters. -/
theorem id_filter_null_sentinel :
    parse_int_csv (some (str "-1")) = .ok (some [-1]) ∧
    parse_int_csv (some (str "1,-1")) = .ok (some [1, -1]) ∧
    (∀ (rows : List CostRow) (pids fids : Option (List Int))
        (sort_by : List (Str × SortOrder)) (items : List CostRow) (total : Nat),
        cost_find rows pids fids sort_by none 0 = .ok (items, total) →
        ∀ r, r ∈ items ↔ r ∈ rows ∧
          (matchIntFilter pids r.printerId && matchIntFilter fids r.filamentId) = true) ∧
    (∀ field : Option Int, matchIntFilter (some [-1]) field = true ↔ field = none) ∧
    (∀ field : Option Int,
        matchIntFilter (some [1, -1]) field = true ↔ (field = some 1 ∨ field = none)) := by
  refine ⟨rfl, rfl, ?_, ?_, ?_⟩
  · intro rows pids fids sort_by items total h r
    rcases cost_find_ok_elim h with ⟨specs, _, ⟨l, hl, _, _⟩ | ⟨_, hitems, _⟩⟩
    · exact absurd hl (by simp)
    · subst hitems
      rw [(List.perm_insertionSort (lexRel specs) _).mem_iff, List.mem_filter]
  · intro field
    cases field with
    | none => simp [matchIntFilter]
    | some v => simp [matchIntFilter]
  · intro field
    cases field with
    | none => simp [matchIntFilter]
    | some v =>
      constructor
      · intro h
        left
        simp [matchIntFilter, List.filter] at h
        simp [h]
      · rintro (h | h)
        · injection h with h
          subst h
          decide
        · exact absurd h (by simp)

/-- A cost fixture row with a given id and printer relation. -/
def wcp (i : Int) (p : Option PrinterRow) : CostRow :=
  { id := i, created := 0, printer := p, filament := none, fields := emptyCostFields }

/-- C10 witness: filtering two concrete cost rows with `printer_id` filter
`[-1]` returns exactly the row whose printer field is absent. -/
theorem id_filter_null_sentinel_witness :
    ∀ r, r ∈ ([wcp 2 none] : List CostRow) ↔
      r ∈ ([wcp 1 (some (wp 1)), wcp 2 none] : List CostRow) ∧
      (matchIntFilter (some [-1]) r.printerId && matchIntFilter none r.filamentId) = true :=
  id_filter_null_sentinel.2.2.1 [wcp 1 (some (wp 1)), wcp 2 none] (some [-1]) none []
    [wcp 2 none] 1 rfl
